import Mathlib

/-!
Shallow embedding of `src/ChatLanguageModels.py`, the single source file of
the ChatLanguageModels-GPT desktop chat client.  The embedding covers the
non-presentation logic the specification talks about: the `history` table of
the SQLite database file (an ordered list of rows, rowid order), the handlers
`load_database_clicked`, `clear_database_clicked`, `submit_clicked`,
`update_ui`, `perform_long_running_task`, the zero-interval dispatch timer,
`Worker.run`, and `CreateDatabaseDialog.create_database`.
-/

namespace ChatLanguageModels

/-- One row of the `history` table, equally one entry of the in-memory
`message_history` list: the four text fields `(date, role, content, response)`
of the schema created by `CREATE TABLE IF NOT EXISTS history`. -/
structure Turn where
  date : String
  role : String
  content : String
  response : String
deriving Repr, DecidableEq

/-- A stored row, as the 4-tuple bound by
`INSERT INTO history VALUES (?, ?, ?, ?)`. -/
abbrev Row := String × String × String × String

/-- The tuple `(message_info['date'], message_info['role'],
message_info['content'], message_info['response'])` passed to the INSERT. -/
def turnToRow (t : Turn) : Row := (t.date, t.role, t.content, t.response)

/-- The dict `{"date": row[0], "role": row[1], "content": row[2],
"response": row[3]}` built by `load_database_clicked` from a fetched row. -/
def rowToTurn (r : Row) : Turn := ⟨r.1, r.2.1, r.2.2.1, r.2.2.2⟩

/-- `SELECT * FROM history` followed by the dict comprehension over
`fetchall()`: all rows of the table, in rowid (insertion) order. -/
def loadAll (db : List Row) : List Turn := db.map rowToTurn

/-- `INSERT INTO history VALUES (?, ?, ?, ?)` + `commit`: appends one row. -/
def appendTurn (db : List Row) (t : Turn) : List Row := db ++ [turnToRow t]

/-- `DELETE FROM history` + `commit`: removes every row. -/
def clearAll (_db : List Row) : List Row := []

/-- `clear_database_clicked` after the database has been picked: the
`QMessageBox.question` confirmation gates the `DELETE FROM history`. -/
def clearDatabase (confirm : Bool) (db : List Row) : List Row :=
  if confirm then clearAll db else db

/-- The GUI application state: the fields of `ChatApp` the session logic
reads and writes.  `table` is the `history` table of the connected database
file, `invocations` counts `generate_response` worker dispatches,
`timer_active` is the state of `long_running_task_timer`. -/
structure AppState where
  current_prompt : String
  message_history : List Turn
  database_folder : Option String
  database_path : Option String
  table : List Row
  output_text : List String
  timer_active : Bool
  invocations : Nat
deriving Repr, DecidableEq

/-- Python truthiness of the folder/path fields: `not x` holds for both
`None` and the empty string returned by a cancelled file dialog. -/
def falsyStr : Option String → Bool
  | none => true
  | some s => s == ""

/-- `self.output_text.write(line)`: appends one line to the output pane. -/
def write (s : AppState) (line : String) : AppState :=
  { s with output_text := s.output_text ++ [line] }

/-- `load_database_clicked(database_path)`: connects to the file, ensures the
table exists, reads `SELECT * FROM history` into `message_history`, and
reports the database in use.  `file` is the `history` table stored in the
file at `path` (empty for a freshly created database). -/
def load_database_clicked (s : AppState) (path : String) (file : List Row) : AppState :=
  { s with database_path := some path,
           message_history := loadAll file,
           table := file,
           output_text := s.output_text ++ ["Using database: " ++ path] }

/-- `submit_clicked`: guards on folder and database selection, then records
the prompt, appends the placeholder message
`{"date": now, "role": "helpful assistant", "content": prompt, "response": " "}`
to `message_history`, and starts the zero-interval dispatch timer. -/
def submit_clicked (s : AppState) (prompt now : String) : AppState :=
  if falsyStr s.database_folder then
    write s "Please select a folder first."
  else if falsyStr s.database_path then
    write s "Please select a database first."
  else
    let s1 := write s "Prompt is submitted. Wait for response generation."
    { s1 with current_prompt := prompt,
              message_history := s1.message_history ++
                [⟨now, "helpful assistant", prompt, " "⟩],
              timer_active := true }

/-- `perform_long_running_task`: stops the timer and calls
`generate_response`, which starts one fresh `Worker`. -/
def perform_long_running_task (s : AppState) : AppState :=
  { s with timer_active := false, invocations := s.invocations + 1 }

/-- One timeout delivery of `long_running_task_timer`: the connected slot
`perform_long_running_task` runs only while the timer is active. -/
def timerFire (s : AppState) : AppState :=
  if s.timer_active then perform_long_running_task s else s

/-- `n` successive timeout deliveries of the zero-interval timer. -/
def timerFireN : Nat → AppState → AppState
  | 0, s => s
  | n + 1, s => timerFireN n (timerFire s)

/-- Python `list(response)` on a string: the list of its characters, each a
one-character string. -/
def stringToPyList (str : String) : List String :=
  str.data.map (fun c => String.mk [c])

/-- `Worker.run`: on success emits `list(response)`; on an exception `e`
emits the single-element list `["Error generating response: " + str(e)]`.
The argument is the outcome of the `g4f.ChatCompletion.create` call. -/
def workerRun (result : Except String String) : List String :=
  match result with
  | Except.ok response => stringToPyList response
  | Except.error e => ["Error generating response: " ++ e]

/-- The `overall_message` accumulation loop of `update_ui`:
`for message in response: overall_message += message`. -/
def overallMessage (response : List String) : String :=
  response.foldl (fun a b => a ++ b) ""

/-- `update_ui(response)`: concatenates the emitted list, writes it to the
output pane, appends a completed message dict to `message_history`, and
inserts the same four fields as one row into the `history` table. -/
def update_ui (s : AppState) (response : List String) (now : String) : AppState :=
  let overall := overallMessage response
  let msg : Turn := ⟨now, "helpful assistant", s.current_prompt, overall⟩
  { s with output_text := s.output_text ++ [overall],
           message_history := s.message_history ++ [msg],
           table := appendTurn s.table msg }

/-- The files on disk relevant to database creation: each entry maps a path
to the `history` table stored in that file. -/
abbrev FS := List (String × List Row)

/-- `os.path.exists(database_path)`. -/
def fsExists (fs : FS) (p : String) : Bool := fs.any (fun e => e.1 == p)

/-- `os.path.join(self.folder_path, f"{db_input}.db")`. -/
def dbFilePath (folder db_input : String) : String :=
  folder ++ "/" ++ db_input ++ ".db"

/-- Outcome of `CreateDatabaseDialog.create_database`: the resulting files,
the `QMessageBox` shown (title, text), and whether the dialog accepted. -/
structure CreateResult where
  fs : FS
  modal : Option (String × String)
  accepted : Bool
deriving Repr, DecidableEq

/-- `CreateDatabaseDialog.create_database`: rejects an empty name; if no file
exists at the target path it creates the database with an empty `history`
table and accepts; otherwise it shows a critical message and leaves the
files untouched. -/
def create_database (fs : FS) (folder db_input : String) : CreateResult :=
  if db_input = "" then
    ⟨fs, some ("Error", "Please enter a database name."), false⟩
  else
    let p := dbFilePath folder db_input
    if fsExists fs p = false then
      ⟨fs ++ [(p, [])], some ("Database Created", "Database created successfully."), true⟩
    else
      ⟨fs, some ("Error", "Database already exists. Please choose another name."), false⟩

/-- `rowToTurn` inverts `turnToRow`. -/
theorem rowToTurn_turnToRow (t : Turn) : rowToTurn (turnToRow t) = t := rfl

/-- Appending then loading maps each appended turn back to itself, in order. -/
theorem loadAll_appendTurn (db : List Row) (t : Turn) :
    loadAll (appendTurn db t) = loadAll db ++ [t] := by
  simp [loadAll, appendTurn, rowToTurn_turnToRow]

/-- C1: for every database file and every sequence of turns appended to it,
loading the history via `load_database_clicked`'s `SELECT * FROM history`
yields the previous contents followed by the appended turns in the same
order in which they were appended. -/
theorem load_preserves_append_order (s : AppState) (p : String)
    (db : List Row) (ts : List Turn) :
    (load_database_clicked s p (ts.foldl appendTurn db)).message_history =
      loadAll db ++ ts := by
  show loadAll (ts.foldl appendTurn db) = loadAll db ++ ts
  induction ts generalizing db with
  | nil => simp
  | cons t ts ih =>
      simp only [List.foldl_cons]
      rw [ih, loadAll_appendTurn]
      simp

/-- C2: appending a turn (the `INSERT INTO history` of `update_ui`) and then
performing a fresh load of the history yields a sequence whose last element
is the appended turn. -/
theorem append_then_load_last (s : AppState) (p : String)
    (db : List Row) (t : Turn) :
    ((load_database_clicked s p (appendTurn db t)).message_history).getLast? =
      some t := by
  show (loadAll (appendTurn db t)).getLast? = some t
  rw [loadAll_appendTurn]
  simp

/-- C7: the full-table clear of `clear_database_clicked` (confirmed), followed
by a load of the history, returns an empty sequence. -/
theorem clear_then_load (s : AppState) (p : String) (db : List Row) :
    (load_database_clicked s p (clearDatabase true db)).message_history = [] := by
  show loadAll (clearDatabase true db) = []
  simp [clearDatabase, clearAll, loadAll]

/-- Folding string concatenation over the one-character pieces of a
character list rebuilds the list behind the accumulator. -/
theorem foldl_append_singletons (l : List Char) (acc : String) :
    (l.map (fun c => String.mk [c])).foldl (fun a b => a ++ b) acc =
      acc ++ String.mk l := by
  induction l generalizing acc with
  | nil =>
      apply String.ext
      simp [String.data_append]
  | cons c l ih =>
      simp only [List.map_cons, List.foldl_cons]
      rw [ih]
      apply String.ext
      simp [String.data_append]

/-- C10: the worker emits `list(response)`, exploding the provider string
into characters; `update_ui`'s concatenation loop reassembles them into a
string equal to the original provider string. -/
theorem response_reassembled (str : String) :
    overallMessage (workerRun (Except.ok str)) = str := by
  show (str.data.map (fun c => String.mk [c])).foldl (fun a b => a ++ b) "" = str
  rw [foldl_append_singletons]
  apply String.ext
  simp [String.data_append]

/-- C5: an exception with message `m` in the completion call is caught by
`Worker.run`; the row `update_ui` then stores has as its response field
exactly the string `"Error generating response: " ++ m`.  The stored text is
a function of `m` alone, so replaying the same failure stores the same
response text. -/
theorem error_message_stored (s : AppState) (m now : String) :
    (update_ui s (workerRun (Except.error m)) now).table =
      appendTurn s.table
        ⟨now, "helpful assistant", s.current_prompt,
          "Error generating response: " ++ m⟩ := by
  have h : overallMessage ["Error generating response: " ++ m] =
      "Error generating response: " ++ m := by
    show "" ++ ("Error generating response: " ++ m) = _
    apply String.ext
    simp [String.data_append]
  simp [update_ui, workerRun, h]

/-- C6: with no database selected, `submit_clicked` only writes one inline
message to the output pane; the prompt, the in-memory history, the database
table, the selection fields, the timer, and the invocation count are all
unchanged, and no completion invocation is dispatched. -/
theorem submit_no_database (s : AppState) (prompt now : String)
    (hp : falsyStr s.database_path = true) :
    submit_clicked s prompt now =
      { s with output_text := s.output_text ++
          [if falsyStr s.database_folder then "Please select a folder first."
           else "Please select a database first."] } := by
  by_cases hf : falsyStr s.database_folder = true
  · simp [submit_clicked, hf, write]
  · simp only [Bool.not_eq_true] at hf
    simp [submit_clicked, hf, hp, write]

/-- Closed instance of `submit_no_database` at a concrete state with a folder
selected but no database. -/
theorem submit_no_database_witness :
    submit_clicked
        ⟨"", [], some "f", none, [], [], false, 0⟩ "hi" "01-01-2024 10:00:00" =
      ⟨"", [], some "f", none, [], ["Please select a database first."], false, 0⟩ := by
  have h := submit_no_database
    ⟨"", [], some "f", none, [], [], false, 0⟩ "hi" "01-01-2024 10:00:00" (by decide)
  rw [h]
  decide

/-- A state whose timer is inactive is a fixed point of the timer slot. -/
theorem timerFire_inactive (s : AppState) (h : s.timer_active = false) :
    timerFire s = s := by
  simp [timerFire, h]

/-- Repeated timeout deliveries leave a timer-inactive state unchanged. -/
theorem timerFireN_inactive (n : Nat) (s : AppState)
    (h : s.timer_active = false) :
    timerFireN n s = s := by
  induction n with
  | zero => rfl
  | succ n ih => simp [timerFireN, timerFire_inactive s h, ih]

/-- C9: with a folder and a database selected, `submit_clicked` itself
dispatches no invocation; it starts the zero-interval timer, and however many
timeout deliveries then occur (at least one), `perform_long_running_task`
stops the timer on the first one, so exactly one completion invocation is
dispatched for the submit. -/
theorem one_invocation_per_submit (s : AppState) (prompt now : String) (n : Nat)
    (hf : falsyStr s.database_folder = false)
    (hp : falsyStr s.database_path = false) :
    (submit_clicked s prompt now).invocations = s.invocations ∧
      (timerFireN (n + 1) (submit_clicked s prompt now)).invocations =
        s.invocations + 1 := by
  have hs : submit_clicked s prompt now =
      { s with current_prompt := prompt,
               message_history := s.message_history ++
                 [⟨now, "helpful assistant", prompt, " "⟩],
               output_text := s.output_text ++
                 ["Prompt is submitted. Wait for response generation."],
               timer_active := true } := by
    simp [submit_clicked, hf, hp, write]
  constructor
  · rw [hs]
  · rw [hs]
    show (timerFireN n (timerFire _)).invocations = s.invocations + 1
    rw [timerFire, if_pos rfl]
    rw [timerFireN_inactive n _ rfl]
    rfl

/-- Closed instance of `one_invocation_per_submit`: one submit from a ready
state followed by three timer deliveries yields exactly one invocation. -/
theorem one_invocation_per_submit_witness :
    (timerFireN 3 (submit_clicked
        ⟨"", [], some "f", some "f/a.db", [], [], false, 0⟩
        "hi" "01-01-2024 10:00:00")).invocations = 0 + 1 :=
  (one_invocation_per_submit
    ⟨"", [], some "f", some "f/a.db", [], [], false, 0⟩
    "hi" "01-01-2024 10:00:00" 2 (by decide) (by decide)).2

/-- C8: when a file already exists at the target path, `create_database`
shows the database-already-exists condition as a critical modal message,
leaves the files untouched, and does not accept the dialog. -/
theorem create_database_already_exists (fs : FS) (folder db_input : String)
    (hn : ¬ db_input = "")
    (he : fsExists fs (dbFilePath folder db_input) = true) :
    create_database fs folder db_input =
      ⟨fs, some ("Error", "Database already exists. Please choose another name."),
        false⟩ := by
  simp [create_database, hn, he]

/-- Closed instance of `create_database_already_exists` at a one-file
filesystem containing the target path. -/
theorem create_database_already_exists_witness :
    create_database [("f/a.db", [])] "f" "a" =
      ⟨[("f/a.db", [])],
        some ("Error", "Database already exists. Please choose another name."),
        false⟩ :=
  create_database_already_exists [("f/a.db", [])] "f" "a"
    (by decide) (by decide)

/-- End-to-end scenario: creating `test.db` in folder `f` on an empty disk. -/
def scenarioCreated : CreateResult := create_database [] "f" "test"

/-- The `history` table stored in the freshly created file. -/
def scenarioFile : List Row := (List.lookup "f/test.db" scenarioCreated.fs).getD []

/-- The application state after the folder has been selected. -/
def scenarioStart : AppState := ⟨"", [], some "f", none, [], [], false, 0⟩

/-- The state after `load_database_clicked` on the fresh database. -/
def scenarioLoaded : AppState :=
  load_database_clicked scenarioStart "f/test.db" scenarioFile

/-- The state after submitting the prompt `"hello"`. -/
def scenarioSubmitted : AppState :=
  submit_clicked scenarioLoaded "hello" "01-01-2024 12:00:00"

/-- The state after the timer delivery that dispatches the worker. -/
def scenarioDispatched : AppState := timerFire scenarioSubmitted

/-- The state after `update_ui` receives the stubbed completion `"world"`. -/
def scenarioDone : AppState :=
  update_ui scenarioDispatched (workerRun (Except.ok "world")) "01-01-2024 12:00:05"

/-- C3: starting from a freshly created `test.db`, submitting `"hello"` with
the completion invoker stubbed to return `"world"` and then loading the
history returns exactly one turn with content `"hello"` and response
`"world"`. -/
theorem end_to_end_hello_world :
    scenarioCreated.accepted = true ∧
    loadAll scenarioDone.table =
      [⟨"01-01-2024 12:00:05", "helpful assistant", "hello", "world"⟩] := by
  decide

/-- C4 fails on the code: after one submit/response exchange on a fresh
database the in-memory history holds two entries, not one mutated in place —
the submit-time placeholder is still present unchanged, with its response
field equal to the one-space string `" "` (not empty), and the arrived
response lives in a second, separately appended entry. -/
theorem in_place_mutation_counterexample :
    scenarioDone.message_history.length = 2 ∧
    scenarioDone.message_history.head? =
      some ⟨"01-01-2024 12:00:00", "helpful assistant", "hello", " "⟩ := by
  decide

/-- C4 amended: a submit appends a placeholder entry (prompt fields
populated, response a single space) to the in-memory history; that
placeholder is never mutated; when the response arrives a second, completed
entry is appended to the in-memory history and the completed entry is
written exactly once to the database as one row. -/
theorem turn_lifecycle_amended (s : AppState)
    (prompt now1 now2 : String) (response : List String)
    (hf : falsyStr s.database_folder = false)
    (hp : falsyStr s.database_path = false) :
    (submit_clicked s prompt now1).message_history =
      s.message_history ++ [⟨now1, "helpful assistant", prompt, " "⟩] ∧
    (update_ui (timerFire (submit_clicked s prompt now1)) response now2).message_history =
      (submit_clicked s prompt now1).message_history ++
        [⟨now2, "helpful assistant", prompt, overallMessage response⟩] ∧
    (update_ui (timerFire (submit_clicked s prompt now1)) response now2).table =
      appendTurn s.table
        ⟨now2, "helpful assistant", prompt, overallMessage response⟩ := by
  have hs : submit_clicked s prompt now1 =
      { s with current_prompt := prompt,
               message_history := s.message_history ++
                 [⟨now1, "helpful assistant", prompt, " "⟩],
               output_text := s.output_text ++
                 ["Prompt is submitted. Wait for response generation."],
               timer_active := true } := by
    simp [submit_clicked, hf, hp, write]
  rw [hs]
  refine ⟨rfl, ?_, ?_⟩ <;>
    simp [timerFire, perform_long_running_task, update_ui, appendTurn]

/-- Closed instance of `turn_lifecycle_amended` on a ready state with an
empty history: the placeholder and the completed entry after a
`"hello"`/`"world"` exchange. -/
theorem turn_lifecycle_amended_witness :
    (submit_clicked ⟨"", [], some "f", some "f/a.db", [], [], false, 0⟩
        "hello" "d1").message_history =
      [⟨"d1", "helpful assistant", "hello", " "⟩] ∧
    (update_ui (timerFire (submit_clicked
        ⟨"", [], some "f", some "f/a.db", [], [], false, 0⟩ "hello" "d1"))
        ["world"] "d2").message_history =
      (submit_clicked ⟨"", [], some "f", some "f/a.db", [], [], false, 0⟩
        "hello" "d1").message_history ++
        [⟨"d2", "helpful assistant", "hello", overallMessage ["world"]⟩] ∧
    (update_ui (timerFire (submit_clicked
        ⟨"", [], some "f", some "f/a.db", [], [], false, 0⟩ "hello" "d1"))
        ["world"] "d2").table =
      appendTurn []
        ⟨"d2", "helpful assistant", "hello", overallMessage ["world"]⟩ :=
  turn_lifecycle_amended ⟨"", [], some "f", some "f/a.db", [], [], false, 0⟩
    "hello" "d1" "d2" ["world"] (by decide) (by decide)

end ChatLanguageModels
